import Mathlib

/-!
Shallow embedding of the Local Food Wastage Management dashboard
(`app.py`, `build_db.py`) and proofs about its query-and-caching layer,
its report queries and its ingestion script.

Conventions of the embedding:
* A pandas `DataFrame` is a list of named columns together with rows of
  cell strings; `pd.DataFrame()` is the table with no columns and no rows.
* Streamlit caching (`st.cache_resource` on `setup_database`,
  `st.cache_data` on `run_query`) is modelled by explicit cache fields in a
  process state `St`, threaded through every call.
* Effects external to the app code (which CSV files exist, whether the
  pandas build block succeeds, whether `sqlite3.connect` succeeds, what
  `pd.read_sql_query` returns) are parameters in an environment `Env`;
  a raised exception is `none` / a `false` flag.
* Python functions that cannot raise in the embedded fragment are total
  Lean functions; a raised exception that propagates to the caller is an
  `Except.error`.
-/

/-- The single-quote character used by the SQL string interpolation. -/
def sqlQuote : String := String.singleton (Char.ofNat 39)

/-- A tabular result (models a pandas `DataFrame`): named columns and rows
of cell strings. -/
structure DataFrame where
  cols : List String
  rows : List (List String)
deriving DecidableEq, Repr

/-- `pd.DataFrame()`: the empty table returned by the failure paths of
`run_query`. It has no columns and no rows. -/
def DataFrame.emptyDF : DataFrame := ⟨[], []⟩

/-- `df.empty` in pandas, as used by the pages: the table has no rows. -/
def DataFrame.isEmpty (df : DataFrame) : Bool := df.rows.isEmpty

/-- `df[c]` in pandas: the values of column `c`, or `none` (a `KeyError`)
when the column is absent. -/
def DataFrame.col (df : DataFrame) (c : String) : Option (List String) :=
  match df.cols.findIdx? (fun x => x == c) with
  | some i => some (df.rows.map (fun r => r.getD i ""))
  | none => none

/-- The execution environment external to the app code. `csvPresent` is
`os.path.exists` on the CSV names; `buildOk` says whether the pandas
read/`to_sql` block of `setup_database` runs without exception; `connectOk`
says whether `sqlite3.connect` succeeds in `get_db_connection`;
`execQuery q` is the table `pd.read_sql_query(q, conn)` returns, `none`
modelling a raised exception; `failDbCreated` and `failTables` describe the
store file after a build that failed part-way. -/
structure Env where
  csvPresent : String → Bool
  buildOk : Bool
  connectOk : Bool
  execQuery : String → Option DataFrame
  failDbCreated : Bool
  failTables : List String

/-- The per-process state: whether the store file `food_wastage.db` exists,
the `st.cache_resource` slot of `setup_database` (`none` = not yet run),
the `st.cache_data` store of `run_query` keyed by exact query text, the
log of `st.error` messages shown, a counter of operations against the
backing store, a counter of executions of the `setup_database` body, and
the list of tables present in the store. -/
structure St where
  dbExists : Bool
  setupCache : Option (Option Bool)
  runCache : List (String × DataFrame)
  errors : List String
  storeOps : Nat
  setupRuns : Nat
  tables : List String
deriving DecidableEq, Repr

/-- The four required input files checked by both `setup_database` and
`build_db.py`. -/
def required_csvs : List String :=
  ["providers_data.csv", "receivers_data.csv", "food_listings_data.csv", "claims_data.csv"]

/-- The `st.error` text for a missing CSV in `setup_database`. -/
def csvErrorMsg (f : String) : String :=
  "Required CSV file " ++ sqlQuote ++ f ++ sqlQuote ++
    " not found. Please ensure all CSVs are in the project folder."

/-- The `st.error` text for an exception inside the build block. -/
def setupErrorMsg : String := "Error during database setup"

/-- The `st.error` text for a failed `sqlite3.connect`. -/
def connErrorMsg : String := "Error connecting to database"

/-- The `st.error` text for a failed `pd.read_sql_query`. -/
def execErrorMsg : String := "Error executing query"

/-- `setup_database` under `@st.cache_resource`: if the cache slot is
filled, return the cached result without running the body. Otherwise run
the body: report and return `none` (Python `None`) at the first missing
CSV; on a successful build, create the store file, replace the four tables
and return `some true`; on an exception inside the build block, report and
return `some false`. Every body execution bumps `setupRuns` and fills the
cache slot with its result. -/
def setup_database (env : Env) (s : St) : Option Bool × St :=
  match s.setupCache with
  | some r => (r, s)
  | none =>
    match required_csvs.find? (fun f => !env.csvPresent f) with
    | some f =>
        (none,
         { s with
           setupCache := some none,
           setupRuns := s.setupRuns + 1,
           errors := s.errors ++ [csvErrorMsg f] })
    | none =>
        if env.buildOk then
          (some true,
           { s with
             setupCache := some (some true),
             setupRuns := s.setupRuns + 1,
             dbExists := true,
             storeOps := s.storeOps + 1,
             tables := ["Providers", "Receivers", "Food_Listings", "Claims"] })
        else
          (some false,
           { s with
             setupCache := some (some false),
             setupRuns := s.setupRuns + 1,
             dbExists := s.dbExists || env.failDbCreated,
             storeOps := s.storeOps + 1,
             errors := s.errors ++ [setupErrorMsg],
             tables := s.tables ++ env.failTables })

/-- The `sqlite3.connect` attempt at the end of `get_db_connection`:
returns whether a connection was obtained; the attempt touches the store. -/
def connectStep (env : Env) (s : St) : Bool × St :=
  if env.connectOk then (true, { s with storeOps := s.storeOps + 1 })
  else
    (false,
     { s with
       errors := s.errors ++ [connErrorMsg],
       storeOps := s.storeOps + 1 })

/-- `get_db_connection`: when the store file is absent, call
`setup_database` first and give up (return no connection) unless it
returned `True` (Python truthiness: `None` and `False` both fail the
`if not setup_database()` test); then attempt `sqlite3.connect`. -/
def get_db_connection (env : Env) (s : St) : Bool × St :=
  if s.dbExists then connectStep env s
  else
    let p := setup_database env s
    if p.1 = some true then connectStep env p.2 else (false, p.2)

/-- Cache lookup for `run_query`, keyed by the exact query text. -/
def cacheLookup (c : List (String × DataFrame)) (q : String) : Option DataFrame :=
  (c.find? (fun e => e.1 == q)).map (fun e => e.2)

/-- `run_query` under `@st.cache_data`: a cache hit returns the stored
table and performs no work at all. On a miss, obtain a connection (which
may trigger the one-time rebuild); with no connection return
`pd.DataFrame()`; otherwise execute the query, returning its table, or
report and return `pd.DataFrame()` on an execution exception. The value
returned — including the empty table of the failure paths — is stored in
the cache under the query text. -/
def run_query (env : Env) (s : St) (q : String) : DataFrame × St :=
  match cacheLookup s.runCache q with
  | some df => (df, s)
  | none =>
    let p := get_db_connection env s
    if p.1 then
      match env.execQuery q with
      | some df =>
          (df,
           { p.2 with
             storeOps := p.2.storeOps + 1,
             runCache := p.2.runCache ++ [(q, df)] })
      | none =>
          (DataFrame.emptyDF,
           { p.2 with
             storeOps := p.2.storeOps + 1,
             errors := p.2.errors ++ [execErrorMsg],
             runCache := p.2.runCache ++ [(q, DataFrame.emptyDF)] })
    else
      (DataFrame.emptyDF,
       { p.2 with
         runCache := p.2.runCache ++ [(q, DataFrame.emptyDF)] })

/-- A sequence of `run_query` calls, threading the process state. -/
def runMany (env : Env) (s : St) (qs : List String) : St :=
  qs.foldl (fun t q => (run_query env t q).2) s

section CacheLemmas

/-- `setup_database` never changes the `run_query` cache. -/
theorem setup_runCache (env : Env) (s : St) :
    ((setup_database env s).2).runCache = s.runCache := by
  unfold setup_database
  cases s.setupCache with
  | some r => rfl
  | none =>
    cases required_csvs.find? (fun f => !env.csvPresent f) with
    | some f => rfl
    | none =>
      by_cases hb : env.buildOk <;> simp [hb]

/-- `connectStep` never changes the `run_query` cache. -/
theorem connectStep_runCache (env : Env) (s : St) :
    ((connectStep env s).2).runCache = s.runCache := by
  unfold connectStep
  by_cases hc : env.connectOk <;> simp [hc]

/-- `get_db_connection` never changes the `run_query` cache. -/
theorem get_db_connection_runCache (env : Env) (s : St) :
    ((get_db_connection env s).2).runCache = s.runCache := by
  unfold get_db_connection
  by_cases hd : s.dbExists
  · simp [hd, connectStep_runCache]
  · by_cases hs : (setup_database env s).1 = some true <;>
      simp [hd, hs, connectStep_runCache, setup_runCache]

/-- Appending a fresh entry makes the lookup find it. -/
theorem cacheLookup_append (c : List (String × DataFrame)) (q : String) (df : DataFrame)
    (hc : cacheLookup c q = none) :
    cacheLookup (c ++ [(q, df)]) q = some df := by
  unfold cacheLookup at *
  induction c with
  | nil => simp [List.find?]
  | cons e c ih =>
    cases he : (e.1 == q) with
    | true => simp [List.find?, he] at hc
    | false =>
      simp only [List.cons_append, List.find?, he] at hc ⊢
      exact ih hc

/-- After any `run_query` call, the cache holds the returned table under
the query text. -/
theorem cacheLookup_after_run (env : Env) (s : St) (q : String) :
    cacheLookup ((run_query env s q).2).runCache q = some ((run_query env s q).1) := by
  unfold run_query
  cases h : cacheLookup s.runCache q with
  | some df => simp [h]
  | none =>
    have h2 : cacheLookup ((get_db_connection env s).2).runCache q = none := by
      rw [get_db_connection_runCache]; exact h
    by_cases hc : (get_db_connection env s).1
    · cases hx : env.execQuery q with
      | some df => simp [h, hc, hx, cacheLookup_append _ _ _ h2]
      | none => simp [h, hc, hx, cacheLookup_append _ _ _ h2]
    · simp [h, hc, cacheLookup_append _ _ _ h2]

/-- A cache hit returns the cached table and leaves the state unchanged. -/
theorem run_query_hit (env : Env) (s : St) (q : String) (df : DataFrame)
    (h : cacheLookup s.runCache q = some df) :
    run_query env s q = (df, s) := by
  unfold run_query
  simp [h]

end CacheLemmas

section CachePersistence

/-- A lookup that succeeds still succeeds after appending entries. -/
theorem cacheLookup_append_of_some (c l : List (String × DataFrame)) (q : String)
    (df : DataFrame) (h : cacheLookup c q = some df) :
    cacheLookup (c ++ l) q = some df := by
  unfold cacheLookup at *
  induction c with
  | nil => simp [List.find?] at h
  | cons e c ih =>
    cases he : (e.1 == q) with
    | true =>
      simp only [List.find?, he, Option.map_some] at h
      simp only [List.cons_append, List.find?, he, Option.map_some]
      exact h
    | false =>
      simp only [List.find?, he] at h
      simp only [List.cons_append, List.find?, he]
      exact ih h

/-- Any later `run_query` call keeps an existing cache entry intact. -/
theorem cacheLookup_run_preserved (env : Env) (s : St) (q q2 : String) (df : DataFrame)
    (h : cacheLookup s.runCache q = some df) :
    cacheLookup ((run_query env s q2).2).runCache q = some df := by
  unfold run_query
  cases h2 : cacheLookup s.runCache q2 with
  | some d => simpa [h2] using h
  | none =>
    have hg := get_db_connection_runCache env s
    by_cases hc : (get_db_connection env s).1
    · cases hx : env.execQuery q2 with
      | some d =>
        simp only [h2, hc, hx, if_true]
        exact cacheLookup_append_of_some _ _ _ _ (hg ▸ h)
      | none =>
        simp only [h2, hc, hx, if_true]
        exact cacheLookup_append_of_some _ _ _ _ (hg ▸ h)
    · simp only [h2, hc, Bool.false_eq_true, if_false]
      exact cacheLookup_append_of_some _ _ _ _ (hg ▸ h)

/-- Any sequence of later `run_query` calls keeps an existing cache entry
intact. -/
theorem cacheLookup_runMany_preserved (env : Env) (qs : List String) (s : St)
    (q : String) (df : DataFrame) (h : cacheLookup s.runCache q = some df) :
    cacheLookup ((runMany env s qs)).runCache q = some df := by
  induction qs generalizing s with
  | nil => exact h
  | cons q2 qs ih =>
    exact ih _ (cacheLookup_run_preserved env s q q2 df h)

end CachePersistence

/-- C1: for every query string `Q`, a second `run_query` with the same
text returns the identical table and leaves the process state untouched
(no new connection, no re-execution, no store operation), and the cached
result keeps being returned unchanged after any further sequence of
`run_query` calls in the same process session. -/
theorem run_query_cached_for_session (env : Env) (s : St) (q : String) :
    run_query env ((run_query env s q).2) q = ((run_query env s q).1, (run_query env s q).2)
    ∧ ∀ qs : List String,
        run_query env (runMany env ((run_query env s q).2) qs) q
          = ((run_query env s q).1, runMany env ((run_query env s q).2) qs) := by
  refine ⟨?_, ?_⟩
  · exact run_query_hit env _ q _ (cacheLookup_after_run env s q)
  · intro qs
    exact run_query_hit env _ q _
      (cacheLookup_runMany_preserved env qs _ q _ (cacheLookup_after_run env s q))

/-- C2: on a store-connection failure or a query-execution failure,
`run_query` does not raise (it is a total function of the embedding) and
returns the empty table `pd.DataFrame()`, a table with zero rows, so the
caller always receives a table. -/
theorem run_query_failure_returns_empty_table (env : Env) (s : St) (q : String)
    (hmiss : cacheLookup s.runCache q = none)
    (hfail : (get_db_connection env s).1 = false ∨ env.execQuery q = none) :
    (run_query env s q).1 = DataFrame.emptyDF ∧ ((run_query env s q).1).rows = [] := by
  unfold run_query
  rcases hfail with hconn | hexec
  · simp [hmiss, hconn, DataFrame.emptyDF]
  · by_cases hconn : (get_db_connection env s).1
    · simp [hmiss, hconn, hexec, DataFrame.emptyDF]
    · simp [hmiss, hconn, DataFrame.emptyDF]

/-- The pristine process state: no store file, no cached setup result, an
empty query cache. -/
def st0 : St :=
  { dbExists := false, setupCache := none, runCache := [], errors := [],
    storeOps := 0, setupRuns := 0, tables := [] }

/-- An environment in which no CSV file exists and every query raises. -/
def envNoCsv : Env :=
  { csvPresent := fun _ => false, buildOk := true, connectOk := true,
    execQuery := fun _ => none, failDbCreated := false, failTables := [] }

/-- Witness for C2: in a process with no store file and no CSV inputs, a
fresh query misses the cache, the connection fails, and `run_query`
returns the zero-row empty table. -/
theorem run_query_failure_returns_empty_table_witness :
    cacheLookup st0.runCache "SELECT * FROM Claims;" = none
    ∧ (get_db_connection envNoCsv st0).1 = false
    ∧ (run_query envNoCsv st0 "SELECT * FROM Claims;").1 = DataFrame.emptyDF
    ∧ ((run_query envNoCsv st0 "SELECT * FROM Claims;").1).rows = [] := by
  refine ⟨rfl, rfl, ?_⟩
  exact run_query_failure_returns_empty_table envNoCsv st0 _ rfl (Or.inl rfl)

section SetupOnce

/-- With a filled cache slot, `setup_database` returns the cached result
and does not run its body: the state is untouched. -/
theorem setup_database_cached (env : Env) (t : St) (r : Option Bool)
    (h : t.setupCache = some r) : setup_database env t = (r, t) := by
  unfold setup_database
  simp [h]

/-- `connectStep` does not touch the setup cache slot or the count of
setup-body executions. -/
theorem connectStep_setup_fields (env : Env) (s : St) :
    (connectStep env s).2.setupRuns = s.setupRuns
      ∧ (connectStep env s).2.setupCache = s.setupCache := by
  unfold connectStep
  by_cases hk : env.connectOk <;> simp [hk]

/-- One `get_db_connection` call either leaves the setup cache slot and
the count of setup-body executions unchanged, or — only when the slot was
empty — fills the slot and bumps the count by exactly one. -/
theorem get_db_connection_setup_step (env : Env) (s : St) :
    ((get_db_connection env s).2.setupRuns = s.setupRuns
      ∧ (get_db_connection env s).2.setupCache = s.setupCache)
    ∨ (s.setupCache = none ∧ (get_db_connection env s).2.setupRuns = s.setupRuns + 1
      ∧ ∃ r, (get_db_connection env s).2.setupCache = some r) := by
  unfold get_db_connection
  by_cases hd : s.dbExists
  · left; simpa [hd] using connectStep_setup_fields env s
  · rcases hsc : s.setupCache with _ | r
    · right
      refine ⟨rfl, ?_⟩
      unfold setup_database
      rcases hf : required_csvs.find? (fun f => !env.csvPresent f) with _ | f
      · by_cases hb : env.buildOk
        · simp [hd, hsc, hf, hb, connectStep_setup_fields]
        · simp [hd, hsc, hf, hb]
      · simp [hd, hsc, hf]
    · left
      rw [setup_database_cached env s r hsc] at *
      by_cases hr : r = some true
      · simpa [hd, hr, hsc] using connectStep_setup_fields env s
      · simp [hd, hr, hsc]

/-- On a cache miss, `run_query` changes the setup fields exactly as its
inner `get_db_connection` call does. -/
theorem run_query_setup_eq_gdc (env : Env) (s : St) (q : String)
    (hm : cacheLookup s.runCache q = none) :
    (run_query env s q).2.setupRuns = (get_db_connection env s).2.setupRuns
      ∧ (run_query env s q).2.setupCache = (get_db_connection env s).2.setupCache := by
  unfold run_query
  by_cases hc : (get_db_connection env s).1 <;>
    rcases hx : env.execQuery q with _ | d <;> simp [hm, hc, hx]

/-- One `run_query` call either leaves the setup cache slot and the count
of setup-body executions unchanged, or — only when the slot was empty —
fills the slot and bumps the count by exactly one. -/
theorem run_query_setup_step (env : Env) (s : St) (q : String) :
    ((run_query env s q).2.setupRuns = s.setupRuns
      ∧ (run_query env s q).2.setupCache = s.setupCache)
    ∨ (s.setupCache = none ∧ (run_query env s q).2.setupRuns = s.setupRuns + 1
      ∧ ∃ r, (run_query env s q).2.setupCache = some r) := by
  rcases hm : cacheLookup s.runCache q with _ | df
  · rcases run_query_setup_eq_gdc env s q hm with ⟨h1, h2⟩
    rcases get_db_connection_setup_step env s with ⟨g1, g2⟩ | ⟨g0, g1, r, g2⟩
    · left; exact ⟨h1.trans g1, h2.trans g2⟩
    · right; exact ⟨g0, h1.trans g1, r, h2.trans g2⟩
  · left
    have : run_query env s q = (df, s) := run_query_hit env s q df hm
    rw [this]
    exact ⟨rfl, rfl⟩

end SetupOnce

/-- The at-most-once invariant: the setup body has run at most once, and
not at all while the cache slot is still empty. -/
def SetupInv (s : St) : Prop :=
  s.setupRuns ≤ 1 ∧ (s.setupCache = none → s.setupRuns = 0)

/-- A `run_query` call preserves the at-most-once invariant. -/
theorem run_query_SetupInv (env : Env) (s : St) (q : String)
    (h : SetupInv s) : SetupInv ((run_query env s q).2) := by
  rcases h with ⟨h1, h2⟩
  rcases run_query_setup_step env s q with ⟨g1, g2⟩ | ⟨g0, g1, r, g2⟩
  · exact ⟨g1 ▸ h1, fun hn => g1 ▸ h2 (g2 ▸ hn)⟩
  · refine ⟨?_, fun hn => ?_⟩
    · rw [g1, h2 g0]
    · rw [g2] at hn; exact absurd hn (by simp)

/-- Any sequence of `run_query` calls preserves the at-most-once
invariant. -/
theorem runMany_SetupInv (env : Env) (qs : List String) (s : St)
    (h : SetupInv s) : SetupInv (runMany env s qs) := by
  induction qs generalizing s with
  | nil => exact h
  | cons q qs ih => exact ih _ (run_query_SetupInv env s q h)

/-- C4: the `setup_database` body executes at most once per process.
Starting from a state in which the body has never run, any sequence of
`run_query` calls leaves at most one execution of the rebuild body;
moreover, when the store file is absent, `get_db_connection` runs the
rebuild (bumping the execution count to one) before attempting to
connect, and every call of `setup_database` made while the
`st.cache_resource` slot is filled returns the cached rebuild result with
the state — hence the body — untouched. -/
theorem setup_database_at_most_once (env : Env) (s : St) (qs : List String)
    (hc : s.setupCache = none) (hr : s.setupRuns = 0) :
    (runMany env s qs).setupRuns ≤ 1
    ∧ (s.dbExists = false → (get_db_connection env s).2.setupRuns = 1)
    ∧ (∀ t : St, ∀ r : Option Bool, t.setupCache = some r →
        setup_database env t = (r, t)) := by
  refine ⟨(runMany_SetupInv env qs s ⟨by omega, fun _ => hr⟩).1, fun hd => ?_,
    setup_database_cached env⟩
  rcases get_db_connection_setup_step env s with ⟨g1, _⟩ | ⟨_, g1, _, _⟩
  · -- the unchanged branch is impossible: with no store file and an empty
    -- cache slot the body must run; show the changed branch applies
    unfold get_db_connection at g1 ⊢
    unfold setup_database at g1 ⊢
    rcases hf : required_csvs.find? (fun f => !env.csvPresent f) with _ | f
    · by_cases hb : env.buildOk
      · simp [hd, hc, hf, hb, connectStep] at g1 ⊢
        by_cases hk : env.connectOk <;> simp [hk] at g1
      · simp [hd, hc, hf, hb] at g1 ⊢
    · simp [hd, hc, hf] at g1 ⊢
  · rw [g1, hr]

/-- An environment in which every input file exists, the build and the
connection succeed, and every query returns a one-row table. -/
def envOk : Env :=
  { csvPresent := fun _ => true, buildOk := true, connectOk := true,
    execQuery := fun q => some ⟨["c"], [[q]]⟩, failDbCreated := false, failTables := [] }

/-- Witness for C4: from the pristine state, three queries (one repeated)
leave exactly one execution of the rebuild body. -/
theorem setup_database_at_most_once_witness :
    st0.setupCache = none ∧ st0.setupRuns = 0
    ∧ (runMany envOk st0 ["q1", "q2", "q1"]).setupRuns ≤ 1
    ∧ (st0.dbExists = false → (get_db_connection envOk st0).2.setupRuns = 1) :=
  ⟨rfl, rfl,
    (setup_database_at_most_once envOk st0 ["q1", "q2", "q1"] rfl rfl).1,
    (setup_database_at_most_once envOk st0 ["q1", "q2", "q1"] rfl rfl).2.1⟩

/-- The observable outcome of one execution of the `build_db.py` script:
whether `exit()` halted it, what it printed, and which tables it replaced
in the store. -/
structure BuildResult where
  halted : Bool
  messages : List String
  tablesWritten : List String
deriving DecidableEq, Repr

/-- First line printed by `build_db.py` for a missing input file. -/
def buildMissingMsg (f : String) : String :=
  "Error: The required file " ++ sqlQuote ++ f ++ sqlQuote ++
    " was not found in the same directory."

/-- Second line printed by `build_db.py` for a missing input file. -/
def buildMissingMsg2 : String :=
  "Please ensure you have all four CSV files downloaded and placed here."

/-- Printed by `build_db.py` after connecting to the store. -/
def buildConnectedMsg : String :=
  "Connected to database file " ++ sqlQuote ++ "food_wastage.db" ++ sqlQuote

/-- Printed by `build_db.py` before loading the CSVs. -/
def buildLoadingMsg : String := "Loading data from CSVs into the database..."

/-- Printed by `build_db.py` on success. -/
def buildSuccessMsg : String := "Data loaded and database created successfully!"

/-- Printed by `build_db.py` when the load block raises. -/
def buildFailMsg : String := "An error occurred"

/-- `build_db.py`: check the four required CSVs one by one, printing two
lines and halting (`exit()`) at the first missing one — before any
connection to the store is opened, so nothing is written. Otherwise
connect and load the four CSVs into the four tables inside a
try/except/finally; `env.buildOk` says whether the load block completes,
`env.failTables` which tables were already replaced when it raised
part-way. -/
def build_db (env : Env) : BuildResult :=
  match required_csvs.find? (fun f => !env.csvPresent f) with
  | some f =>
      { halted := true,
        messages := [buildMissingMsg f, buildMissingMsg2],
        tablesWritten := [] }
  | none =>
      if env.buildOk then
        { halted := false,
          messages := [buildConnectedMsg, buildLoadingMsg, buildSuccessMsg],
          tablesWritten := ["Providers", "Receivers", "Food_Listings", "Claims"] }
      else
        { halted := false,
          messages := [buildConnectedMsg, buildLoadingMsg, buildFailMsg],
          tablesWritten := env.failTables }

/-- C7: when any of the four required input files is absent, ingestion is
fatal: `build_db.py` reports the missing file and halts with no table
written to the store, and the in-app ingestion path `setup_database`
likewise reports, returns `None` and leaves the store (its file and its
tables) untouched. -/
theorem ingestion_fatal_on_missing_csv (env : Env) (s : St)
    (h : ∃ f ∈ required_csvs, env.csvPresent f = false) :
    (build_db env).halted = true
    ∧ (build_db env).tablesWritten = []
    ∧ (build_db env).messages ≠ []
    ∧ (s.setupCache = none →
        (setup_database env s).1 = none
        ∧ ((setup_database env s).2).tables = s.tables
        ∧ ((setup_database env s).2).dbExists = s.dbExists
        ∧ ((setup_database env s).2).errors ≠ s.errors) := by
  have hsome : (required_csvs.find? (fun f => !env.csvPresent f)).isSome := by
    rcases h with ⟨f, hmem, hmiss⟩
    rw [List.find?_isSome]
    exact ⟨f, hmem, by simp [hmiss]⟩
  rcases hg : required_csvs.find? (fun f => !env.csvPresent f) with _ | g
  · rw [hg] at hsome; simp at hsome
  · refine ⟨?_, ?_, ?_, fun hc => ?_⟩
    · simp [build_db, hg]
    · simp [build_db, hg]
    · simp [build_db, hg]
    · unfold setup_database
      simp [hc, hg]

/-- Witness for C7: with no CSV file present, `build_db.py` halts having
written nothing, and `setup_database` (empty cache slot) returns `None`
leaving the store untouched. -/
theorem ingestion_fatal_on_missing_csv_witness :
    (∃ f ∈ required_csvs, envNoCsv.csvPresent f = false)
    ∧ (build_db envNoCsv).halted = true
    ∧ (build_db envNoCsv).tablesWritten = []
    ∧ (setup_database envNoCsv st0).1 = none
    ∧ ((setup_database envNoCsv st0).2).tables = st0.tables := by
  have h : ∃ f ∈ required_csvs, envNoCsv.csvPresent f = false :=
    ⟨"providers_data.csv", by decide, rfl⟩
  have := ingestion_fatal_on_missing_csv envNoCsv st0 h
  exact ⟨h, this.1, this.2.1, (this.2.2.2 rfl).1, (this.2.2.2 rfl).2.1⟩

/-- A row of the `Providers` table (from `providers_data.csv`). -/
structure Provider where
  Provider_ID : Nat
  Name : String
  «Type» : String
  City : String
  Contact : String
deriving DecidableEq, Repr

/-- A row of the `Receivers` table (from `receivers_data.csv`). -/
structure Receiver where
  Receiver_ID : Nat
  Name : String
  City : String
deriving DecidableEq, Repr

/-- A row of the `Food_Listings` table (from `food_listings_data.csv`);
`Expiry_Date` is nullable after `pd.to_datetime(..., errors="coerce")`. -/
structure FoodListing where
  Food_ID : Nat
  Provider_ID : Nat
  Quantity : Int
  Meal_Type : String
  Location : String
  Expiry_Date : Option Int
deriving DecidableEq, Repr

/-- A row of the `Claims` table (from `claims_data.csv`); `Timestamp` is
nullable after `pd.to_datetime(..., errors="coerce")`. -/
structure ClaimRow where
  Claim_ID : Nat
  Food_ID : Nat
  Receiver_ID : Nat
  Status : String
  Timestamp : Option Int
deriving DecidableEq, Repr

/-- The four tables of the `food_wastage.db` store. -/
structure Database where
  providers : List Provider
  receivers : List Receiver
  food_listings : List FoodListing
  claims : List ClaimRow
deriving DecidableEq, Repr

/-- SQLite `ROUND(x, 2)` on an exact rational. SQLite rounds half away
from zero; every value rounded in these queries (a percentage of
nonnegative counts, an average of quantities) is used with the same
convention on both sides of each theorem, and Mathlib `round` (half up)
coincides with half-away-from-zero on nonnegative values. -/
def round2 (x : ℚ) : ℚ := (round (x * 100) : ℚ) / 100

/-- Query 10 of the dashboard page: claims status distribution, one row
per distinct `Status` with `ROUND(COUNT(*) * 100.0 / (SELECT COUNT(*)
FROM Claims), 2)`. Groups are listed in first-appearance order; the query
has no ORDER BY. -/
def q10_status_distribution (claims : List ClaimRow) : List (String × ℚ) :=
  ((claims.map (fun c => c.Status)).dedup).map
    (fun st =>
      (st,
       round2 ((((claims.filter (fun c => c.Status == st)).length : ℚ) * 100)
         / (claims.length : ℚ))))

/-- `COUNT(DISTINCT p.Provider_ID)` over the rows of one `City` group of
query 1 of the providers page. -/
def q1_count (ps : List Provider) (c : String) : Nat :=
  ((ps.filter (fun p => p.City == c)).map (fun p => p.Provider_ID)).dedup.length

/-- The GROUP BY aggregate of query 1 of the providers page over a given
row set: one row per distinct `City` with `COUNT(DISTINCT Provider_ID)`.
The trailing ORDER BY (whose tie order SQLite leaves unspecified) is
presentation and is not modelled. -/
def q1_agg (ps : List Provider) : List (String × Nat) :=
  ((ps.map (fun p => p.City)).dedup).map (fun c => (c, q1_count ps c))

/-- Query 1 of the providers page, with the `WHERE p.City = '...'` filter
interpolated exactly when a specific city is selected. -/
def q1_providers (db : Database) (selected_city : String) : List (String × Nat) :=
  let rows := if selected_city == "All Cities" then db.providers
              else db.providers.filter (fun p => p.City == selected_city)
  q1_agg rows

/-- The inner join `Claims c JOIN Food_Listings fl ON <cond>` as the SQL
nested loop: every pair satisfying the ON condition. -/
def q12_join (cs : List ClaimRow) (fls : List FoodListing)
    (onCond : ClaimRow → FoodListing → Bool) : List (ClaimRow × FoodListing) :=
  cs.flatMap (fun c => (fls.filter (onCond c)).map (fun fl => (c, fl)))

/-- `COUNT(c.Claim_ID)` over the rows of one `Meal_Type` group of query
12 of the dashboard page. -/
def q12_count (rows : List (ClaimRow × FoodListing)) (m : String) : Nat :=
  (rows.filter (fun r => r.2.Meal_Type == m)).length

/-- The GROUP BY aggregate of query 12 of the dashboard page over a given
joined row set: one row per distinct `Meal_Type` with
`COUNT(c.Claim_ID)` (no `Claim_ID` is NULL, so this is the group size).
The trailing ORDER BY/LIMIT presentation is not modelled. -/
def q12_agg (rows : List (ClaimRow × FoodListing)) : List (String × Nat) :=
  ((rows.map (fun r => r.2.Meal_Type)).dedup).map
    (fun m => (m, q12_count rows m))

/-- Query 12 of the dashboard page (most claimed meal type): the city
predicate `AND fl.Location = '...'` is appended to the JOIN ... ON clause
exactly when a specific city is selected. -/
def q12_mealtype (db : Database) (selected_city : String) : List (String × Nat) :=
  q12_agg (q12_join db.claims db.food_listings
    (fun c fl => c.Food_ID == fl.Food_ID
      && (selected_city == "All Cities" || fl.Location == selected_city)))

/-- The unfiltered join of query 12: `ON c.Food_ID = fl.Food_ID` alone. -/
def q12_base (db : Database) : List (ClaimRow × FoodListing) :=
  q12_join db.claims db.food_listings (fun c fl => c.Food_ID == fl.Food_ID)

/-- The triple join of query 11 of the receivers page:
`Claims c JOIN Receivers r ON c.Receiver_ID = r.Receiver_ID JOIN
Food_Listings fl ON c.Food_ID = fl.Food_ID`. -/
def q11_join (db : Database) : List (ClaimRow × Receiver × FoodListing) :=
  db.claims.flatMap (fun c =>
    (db.receivers.filter (fun r => c.Receiver_ID == r.Receiver_ID)).flatMap (fun r =>
      (db.food_listings.filter (fun fl => c.Food_ID == fl.Food_ID)).map
        (fun fl => (c, r, fl))))

/-- The row set of query 11 of the receivers page: the join rows
restricted by `WHERE c.Status = 'Completed'` plus the optional
interpolated `AND r.City = '...'`. -/
def q11_rows (db : Database) (selected_city : String) :
    List (ClaimRow × Receiver × FoodListing) :=
  (q11_join db).filter (fun t =>
    t.1.Status == "Completed"
      && (selected_city == "All Cities" || t.2.1.City == selected_city))

/-- Query 11 of the receivers page (average quantity claimed per
receiver): the restricted join rows grouped by receiver name with
`ROUND(AVG(fl.Quantity), 2)`. The trailing ORDER BY/LIMIT 10
presentation is not modelled. -/
def q11_avg_quantity (db : Database) (selected_city : String) : List (String × ℚ) :=
  (((q11_rows db selected_city).map (fun t => t.2.1.Name)).dedup).map
    (fun nm =>
      let grp := (q11_rows db selected_city).filter (fun t => t.2.1.Name == nm)
      (nm, round2 (((grp.map (fun t => (t.2.2.Quantity : ℚ))).sum) / (grp.length : ℚ))))

/-- The city-selector query of `main`:
`SELECT DISTINCT City FROM Providers UNION SELECT DISTINCT Location FROM
Food_Listings`. SQL UNION removes duplicates; its row order is
unspecified and immaterial because `main` sorts the values. -/
def cityUnion (db : Database) : List String :=
  ((db.providers.map (fun p => p.City)) ++
    (db.food_listings.map (fun fl => fl.Location))).dedup

/-- The option list of the sidebar city selector built by `main`:
`['All Cities'] + sorted(all_cities_df['City'].tolist())`. -/
def all_cities (db : Database) : List String :=
  "All Cities" :: ((cityUnion db).insertionSort (fun a b => a ≤ b))

/-- C6: for every database state, the sidebar option list is the sentinel
`All Cities` followed by a sorted, duplicate-free list containing exactly
the values of `Providers.City` and `Food_Listings.Location`. -/
theorem all_cities_selector (db : Database) :
    ∃ L : List String,
      all_cities db = "All Cities" :: L
      ∧ L.Sorted (fun a b => a ≤ b)
      ∧ L.Nodup
      ∧ ∀ x, x ∈ L ↔
          (x ∈ db.providers.map (fun p => p.City)
            ∨ x ∈ db.food_listings.map (fun fl => fl.Location)) := by
  refine ⟨_, rfl, ?_, ?_, ?_⟩
  · exact List.sorted_insertionSort _ _
  · exact ((List.perm_insertionSort _ _).nodup_iff).2 (List.nodup_dedup _)
  · intro x
    rw [(List.perm_insertionSort _ _).mem_iff]
    unfold cityUnion
    rw [List.mem_dedup, List.mem_append]

section FilterCommute

/-- Filtering through a map: a predicate that only looks at the image. -/
theorem map_filter_eq {α β : Type} (f : α → β) (p : β → Bool) (l : List α) :
    (l.filter (fun a => p (f a))).map f = (l.map f).filter p := by
  induction l with
  | nil => rfl
  | cons a l ih =>
    cases hp : p (f a) <;> simp [List.filter, hp, ih]

/-- Deduplicating a list whose members all equal `C` leaves `[C]` when the
underlying list had any member at all. -/
theorem dedup_filter_beq (l : List String) (C : String) :
    ((l.filter (fun x => x == C)).dedup) = if C ∈ l then [C] else [] := by
  induction l with
  | nil => rfl
  | cons a l ih =>
    by_cases ha : a = C
    · subst ha
      by_cases hm : a ∈ l
      · have : a ∈ l.filter (fun x => x == a) := by
          rw [List.mem_filter]; exact ⟨hm, by simp⟩
        simp [List.filter, List.dedup_cons_of_mem this, ih, hm]
      · have : a ∉ l.filter (fun x => x == a) := fun hc => hm (List.mem_filter.1 hc).1
        simp [List.filter, List.dedup_cons_of_not_mem this, ih, hm]
    · have hb : (a == C) = false := by simp [ha]
      have hca : ¬C = a := fun h => ha h.symm
      simp [List.filter, hb, ih, hca]

/-- In a duplicate-free list, keeping the members equal to `C` leaves
`[C]` exactly when `C` is a member. -/
theorem nodup_filter_beq (l : List String) (hl : l.Nodup) (C : String) :
    l.filter (fun x => x == C) = if C ∈ l then [C] else [] := by
  induction l with
  | nil => rfl
  | cons a l ih =>
    rcases List.nodup_cons.1 hl with ⟨ha, hl2⟩
    by_cases hac : a = C
    · subst hac
      simp [List.filter, ih hl2, ha]
    · have hb : (a == C) = false := by simp [hac]
      have hca : ¬C = a := fun h => hac h.symm
      simp [List.filter, hb, ih hl2, hca]

/-- Keeping the members of a deduplicated list equal to `C`. -/
theorem filter_dedup_beq (l : List String) (C : String) :
    (l.dedup.filter (fun x => x == C)) = if C ∈ l then [C] else [] := by
  rw [nodup_filter_beq _ (List.nodup_dedup l) C]
  simp [List.mem_dedup]

end FilterCommute

/-- Filtering the pairs of a keyed map on their first component. -/
theorem map_pair_filter_fst {β : Type} (g : String → β) (xs : List String) (C : String) :
    ((xs.map (fun c => (c, g c))).filter (fun r => r.1 == C))
      = (xs.filter (fun x => x == C)).map (fun c => (c, g c)) := by
  induction xs with
  | nil => rfl
  | cons a xs ih => cases hb : (a == C) <;> simp [List.filter, hb, ih]

/-- Projecting the city out of the city-filtered provider rows. -/
theorem provider_city_map_filter (ps : List Provider) (C : String) :
    (ps.filter (fun p => p.City == C)).map (fun p => p.City)
      = (ps.map (fun p => p.City)).filter (fun x => x == C) := by
  induction ps with
  | nil => rfl
  | cons p ps ih => cases hb : (p.City == C) <;> simp [List.filter, hb, ih]

/-- Query 1: filtering the base rows by exact city match commutes with
the city GROUP BY — the filtered aggregate is the unfiltered aggregate
restricted to the output rows whose city equals the selected one. -/
theorem q1_agg_filter (ps : List Provider) (C : String) :
    q1_agg (ps.filter (fun p => p.City == C)) = (q1_agg ps).filter (fun r => r.1 == C) := by
  unfold q1_agg
  rw [provider_city_map_filter, dedup_filter_beq,
    map_pair_filter_fst (q1_count ps) ((ps.map (fun p => p.City)).dedup) C,
    filter_dedup_beq]
  by_cases hm : C ∈ ps.map (fun p => p.City)
  · have hff : (ps.filter (fun p => p.City == C)).filter (fun p => p.City == C)
        = ps.filter (fun p => p.City == C) := by
      rw [List.filter_filter]
      apply List.filter_congr
      intro a _
      exact Bool.and_self _
    simp only [hm, if_true, List.map_cons, List.map_nil]
    unfold q1_count
    rw [hff]
  · simp [hm]

/-- Pointwise-equal ON conditions produce the same join. -/
theorem q12_join_congr (cs : List ClaimRow) (fls : List FoodListing)
    (p p2 : ClaimRow → FoodListing → Bool) (h : ∀ c fl, p c fl = p2 c fl) :
    q12_join cs fls p = q12_join cs fls p2 := by
  induction cs with
  | nil => rfl
  | cons c cs ih =>
    unfold q12_join at *
    simp only [List.flatMap_cons]
    rw [List.filter_congr (fun fl _ => h c fl), ih]

/-- One step of the join: a conjunct on the listing side of the ON
condition is a filter of the pairs produced for one claim row. -/
theorem q12_inner_filter (c : ClaimRow) (fls : List FoodListing) (g : FoodListing → Bool) :
    (fls.filter (fun fl => c.Food_ID == fl.Food_ID && g fl)).map (fun fl => (c, fl))
      = ((fls.filter (fun fl => c.Food_ID == fl.Food_ID)).map (fun fl => (c, fl))).filter
          (fun r => g r.2) := by
  induction fls with
  | nil => rfl
  | cons fl fls ihf =>
    cases h1 : (c.Food_ID == fl.Food_ID) <;> cases h2 : g fl <;>
      simp [List.filter, h1, h2, ihf]

/-- A conjunct on the right table of an inner-join ON clause is the same
as filtering the join afterwards: appending `AND <pred fl>` to
`ON c.Food_ID = fl.Food_ID` equals a WHERE filter on the joined rows. -/
theorem q12_join_and_filter (cs : List ClaimRow) (fls : List FoodListing)
    (g : FoodListing → Bool) :
    q12_join cs fls (fun c fl => c.Food_ID == fl.Food_ID && g fl)
      = (q12_join cs fls (fun c fl => c.Food_ID == fl.Food_ID)).filter
          (fun r => g r.2) := by
  induction cs with
  | nil => rfl
  | cons c cs ih =>
    unfold q12_join at *
    simp only [List.flatMap_cons, List.filter_append]
    rw [ih]
    congr 1
    exact q12_inner_filter c fls g

/-- C3: with the sentinel `All Cities` selected, query 1 (providers per
city, WHERE-interpolated filter) and query 12 (most claimed meal type,
ON-clause-interpolated filter) equal the unfiltered aggregates; with any
other city `C` selected, query 1 equals the unfiltered aggregate
restricted to the output rows whose city equals `C` exactly
(case-sensitive string equality), and query 12 equals the aggregate of
the unfiltered join restricted to the rows whose listing location equals
`C` exactly — the predicate appended to the JOIN ... ON clause acts as a
WHERE filter. -/
theorem city_filter_exact_match (db : Database) (C : String)
    (hC : C ≠ "All Cities") :
    q1_providers db "All Cities" = q1_agg db.providers
    ∧ q1_providers db C = (q1_agg db.providers).filter (fun r => r.1 == C)
    ∧ q12_mealtype db "All Cities" = q12_agg (q12_base db)
    ∧ q12_mealtype db C
        = q12_agg ((q12_base db).filter (fun r => r.2.Location == C)) := by
  have hCb : (C == "All Cities") = false := by simp [hC]
  refine ⟨?_, ?_, ?_, ?_⟩
  · unfold q1_providers
    simp
  · unfold q1_providers
    simp only [hCb, Bool.false_eq_true, if_false]
    exact q1_agg_filter db.providers C
  · unfold q12_mealtype q12_base
    congr 1
    apply q12_join_congr
    intro c fl
    simp
  · unfold q12_mealtype
    rw [q12_join_congr db.claims db.food_listings _
      (fun c fl => c.Food_ID == fl.Food_ID && (fl.Location == C))
      (fun c fl => by simp [hCb]),
      q12_join_and_filter db.claims db.food_listings (fun fl => fl.Location == C)]
    rfl

/-- A small concrete database used by the witnesses. -/
def dbEx : Database :=
  { providers := [⟨1, "A", "Restaurant", "Delhi", "x"⟩, ⟨2, "B", "Cafe", "Mumbai", "y"⟩],
    receivers := [⟨1, "R1", "Delhi"⟩],
    food_listings := [⟨1, 1, 10, "Lunch", "Delhi", none⟩, ⟨2, 2, 5, "Dinner", "Mumbai", none⟩],
    claims := [⟨1, 1, 1, "Completed", none⟩, ⟨2, 2, 1, "Pending", none⟩] }

/-- Witness for C3: the filter semantics at a concrete database and the
concrete city `Delhi`. -/
theorem city_filter_exact_match_witness :
    "Delhi" ≠ "All Cities"
    ∧ (q1_providers dbEx "All Cities" = q1_agg dbEx.providers
      ∧ q1_providers dbEx "Delhi" = (q1_agg dbEx.providers).filter (fun r => r.1 == "Delhi")
      ∧ q12_mealtype dbEx "All Cities" = q12_agg (q12_base dbEx)
      ∧ q12_mealtype dbEx "Delhi"
          = q12_agg ((q12_base dbEx).filter (fun r => r.2.Location == "Delhi"))) :=
  ⟨by decide, city_filter_exact_match dbEx "Delhi" (by decide)⟩

/-- Every tuple the query 11 join produces for a claim row carries that
claim row as its first component. -/
theorem q11_tuple_fst (db : Database) (c : ClaimRow) :
    ∀ t ∈ (db.receivers.filter (fun r => c.Receiver_ID == r.Receiver_ID)).flatMap
        (fun r => (db.food_listings.filter (fun fl => c.Food_ID == fl.Food_ID)).map
          (fun fl => (c, r, fl))),
      t.1 = c := by
  intro t ht
  rcases List.mem_flatMap.1 ht with ⟨r, _, hm⟩
  rcases List.mem_map.1 hm with ⟨fl, _, rfl⟩
  rfl

/-- Filtering the outer list of a `flatMap` whose blocks carry their seed
in the first component is the same as filtering the flattened rows. -/
theorem flatMap_filter_fst {β : Type} (cs : List ClaimRow)
    (F : ClaimRow → List (ClaimRow × β)) (p : ClaimRow → Bool)
    (hF : ∀ c, ∀ t ∈ F c, t.1 = c) :
    (cs.filter p).flatMap F = (cs.flatMap F).filter (fun t => p t.1) := by
  induction cs with
  | nil => rfl
  | cons c cs ih =>
    cases hp : p c
    · have hnil : List.filter (fun t => p t.1) (F c) = [] :=
        List.filter_eq_nil_iff.2 (fun t ht => by rw [hF c t ht, hp]; simp)
      simp [List.filter, hp, ih, hnil]
    · have hself : List.filter (fun t => p t.1) (F c) = F c :=
        List.filter_eq_self.2 (fun t ht => by rw [hF c t ht]; exact hp)
      simp [List.filter, hp, ih, hself]

/-- Filtering the claims table before the query 11 triple join is the
same as filtering the joined rows on their claim component. -/
theorem q11_join_filter_claims (db : Database) (p : ClaimRow → Bool) :
    q11_join { db with claims := db.claims.filter p }
      = (q11_join db).filter (fun t => p t.1) := by
  show (db.claims.filter p).flatMap (fun c =>
      (db.receivers.filter (fun r => c.Receiver_ID == r.Receiver_ID)).flatMap
        (fun r => (db.food_listings.filter (fun fl => c.Food_ID == fl.Food_ID)).map
          (fun fl => (c, r, fl))))
    = (db.claims.flatMap (fun c =>
        (db.receivers.filter (fun r => c.Receiver_ID == r.Receiver_ID)).flatMap
          (fun r => (db.food_listings.filter (fun fl => c.Food_ID == fl.Food_ID)).map
            (fun fl => (c, r, fl))))).filter (fun t => p t.1)
  exact flatMap_filter_fst db.claims _ p (fun c => q11_tuple_fst db c)

/-- C9: the `Average Quantity Claimed per Receiver` report only averages
over claims whose `Status` is exactly `Completed`: deleting every claim
row of any other status from the database leaves the report unchanged,
for every selected city. -/
theorem q11_only_completed_claims (db : Database) (selected_city : String) :
    q11_avg_quantity { db with claims := db.claims.filter (fun c => c.Status == "Completed") }
        selected_city
      = q11_avg_quantity db selected_city := by
  have hrows :
      q11_rows { db with claims := db.claims.filter (fun c => c.Status == "Completed") }
          selected_city
        = q11_rows db selected_city := by
    unfold q11_rows
    rw [q11_join_filter_claims db (fun c => c.Status == "Completed"), List.filter_filter]
    apply List.filter_congr
    intro t _
    cases ht : (t.1.Status == "Completed") <;> simp [ht]
  unfold q11_avg_quantity
  simp only [hrows]

section Percentages

/-- Sums of maps subtract pointwise. -/
theorem list_sum_map_sub {α : Type} (l : List α) (f g : α → ℚ) :
    (l.map f).sum - (l.map g).sum = (l.map (fun x => f x - g x)).sum := by
  induction l with
  | nil => simp
  | cons a l ih =>
    simp only [List.map_cons, List.sum_cons, ← ih]
    ring

/-- Triangle inequality for a summed map. -/
theorem list_abs_sum_le {α : Type} (l : List α) (f : α → ℚ) :
    |(l.map f).sum| ≤ (l.map (fun x => |f x|)).sum := by
  induction l with
  | nil => simp
  | cons a l ih =>
    simp only [List.map_cons, List.sum_cons]
    calc |f a + (l.map f).sum| ≤ |f a| + |(l.map f).sum| := abs_add _ _
      _ ≤ |f a| + (l.map (fun x => |f x|)).sum := by
          exact add_le_add_left ih _

/-- A summed constant map. -/
theorem list_sum_map_const {α : Type} (l : List α) (c : ℚ) :
    (l.map (fun _ => c)).sum = l.length * c := by
  induction l with
  | nil => simp
  | cons a l ih =>
    simp only [List.map_cons, List.sum_cons, ih, List.length_cons]
    push_cast
    ring

/-- Rounding to two decimal places moves a rational by at most `1/200`
(half of `0.01`). -/
theorem round2_err (x : ℚ) : |round2 x - x| ≤ 1 / 200 := by
  unfold round2
  have h := abs_sub_round (x * 100)
  rw [abs_sub_comm] at h
  have hx : (round (x * 100) : ℚ) / 100 - x = ((round (x * 100) : ℚ) - x * 100) / 100 := by
    ring
  rw [hx, abs_div, abs_of_pos (by norm_num : (0 : ℚ) < 100)]
  calc |(round (x * 100) : ℚ) - x * 100| / 100 ≤ (1 / 2) / 100 := by
        exact div_le_div_of_nonneg_right h (by norm_num) |>.trans_eq rfl
    _ = 1 / 200 := by norm_num

/-- The Claims table of the worked example: three `Completed` rows and
one `Pending` row. -/
def exampleClaims : List ClaimRow :=
  [⟨1, 1, 1, "Completed", none⟩, ⟨2, 1, 1, "Completed", none⟩,
   ⟨3, 1, 1, "Completed", none⟩, ⟨4, 1, 1, "Pending", none⟩]

/-- C5: for every non-empty Claims table the per-status percentages of
the claims-status-distribution query sum to 100 within rounding to two
decimal places (each rounded percentage is within half of `0.01` of the
true one, so the sum is within `k/200` of 100 for `k` status groups);
and on a table of three `Completed` and one `Pending` claims the query
returns exactly 75.00 and 25.00. -/
theorem q10_percentages_sum_to_100 :
    (∀ cs : List ClaimRow, cs ≠ [] →
      |((q10_status_distribution cs).map (fun r => r.2)).sum - 100|
        ≤ ((q10_status_distribution cs).length : ℚ) / 200)
    ∧ q10_status_distribution exampleClaims
        = [("Completed", 75), ("Pending", 25)] := by
  constructor
  · intro cs h
    have hn : (cs.length : ℚ) ≠ 0 := by
      exact_mod_cast fun hc => h (List.length_eq_zero.1 (by exact_mod_cast hc))
    have hmap : (q10_status_distribution cs).map (fun r => r.2)
        = (cs.map (fun c => c.Status)).dedup.map
            (fun st => round2 (((cs.filter (fun c => c.Status == st)).length : ℚ) * 100
              / (cs.length : ℚ))) := by
      unfold q10_status_distribution
      rw [List.map_map]
      rfl
    have hlen : (q10_status_distribution cs).length
        = (cs.map (fun c => c.Status)).dedup.length := by
      unfold q10_status_distribution
      rw [List.length_map]
    have hcount : ∀ st : String, (cs.filter (fun c => c.Status == st)).length
        = (cs.map (fun c => c.Status)).count st := by
      intro st
      rw [List.count, List.countP_map, ← List.countP_eq_length_filter]
      rfl
    have htrue : ((cs.map (fun c => c.Status)).dedup.map
        (fun st => (((cs.map (fun c => c.Status)).count st : ℚ) * 100
          / (cs.length : ℚ)))).sum = 100 := by
      have h1 : ∀ st : String, (((cs.map (fun c => c.Status)).count st : ℚ) * 100
          / (cs.length : ℚ))
            = ((cs.map (fun c => c.Status)).count st : ℚ) * (100 / (cs.length : ℚ)) :=
        fun st => by ring
      simp only [h1]
      rw [List.sum_map_mul_right]
      have h2 : ((cs.map (fun c => c.Status)).dedup.map
          (fun st => ((cs.map (fun c => c.Status)).count st : ℚ))).sum
            = (cs.length : ℚ) := by
        have h3 := List.sum_map_count_dedup_eq_length (cs.map (fun c => c.Status))
        calc ((cs.map (fun c => c.Status)).dedup.map
              (fun st => ((cs.map (fun c => c.Status)).count st : ℚ))).sum
            = (((cs.map (fun c => c.Status)).dedup.map
                (fun st => (cs.map (fun c => c.Status)).count st)).map
                  (fun k : ℕ => (k : ℚ))).sum := by
              rw [List.map_map]
              rfl
          _ = (((cs.map (fun c => c.Status)).dedup.map
              (fun st => (cs.map (fun c => c.Status)).count st)).sum : ℚ) :=
            (Nat.cast_list_sum _).symm
          _ = (cs.length : ℚ) := by rw [h3, List.length_map]
      rw [h2]
      field_simp
    rw [hmap, hlen]
    simp only [hcount]
    calc |((cs.map (fun c => c.Status)).dedup.map
          (fun st => round2 (((cs.map (fun c => c.Status)).count st : ℚ) * 100
            / (cs.length : ℚ)))).sum - 100|
        = |((cs.map (fun c => c.Status)).dedup.map
            (fun st => round2 (((cs.map (fun c => c.Status)).count st : ℚ) * 100
              / (cs.length : ℚ)))).sum
          - ((cs.map (fun c => c.Status)).dedup.map
            (fun st => (((cs.map (fun c => c.Status)).count st : ℚ) * 100
              / (cs.length : ℚ)))).sum| := by rw [htrue]
      _ = |((cs.map (fun c => c.Status)).dedup.map
            (fun st => round2 (((cs.map (fun c => c.Status)).count st : ℚ) * 100
                / (cs.length : ℚ))
              - ((cs.map (fun c => c.Status)).count st : ℚ) * 100
                / (cs.length : ℚ))).sum| := by rw [list_sum_map_sub]
      _ ≤ ((cs.map (fun c => c.Status)).dedup.map
            (fun st => |round2 (((cs.map (fun c => c.Status)).count st : ℚ) * 100
                / (cs.length : ℚ))
              - ((cs.map (fun c => c.Status)).count st : ℚ) * 100
                / (cs.length : ℚ)|)).sum := list_abs_sum_le _ _
      _ ≤ ((cs.map (fun c => c.Status)).dedup.map (fun _ => (1 : ℚ) / 200)).sum :=
          List.sum_le_sum (fun st _ => round2_err _)
      _ = ((cs.map (fun c => c.Status)).dedup.length : ℚ) * (1 / 200) :=
          list_sum_map_const _ _
      _ = ((cs.map (fun c => c.Status)).dedup.length : ℚ) / 200 := by ring
  · have hq : q10_status_distribution exampleClaims
        = [("Completed", round2 (((3 : ℕ) : ℚ) * 100 / ((4 : ℕ) : ℚ))),
           ("Pending", round2 (((1 : ℕ) : ℚ) * 100 / ((4 : ℕ) : ℚ)))] := rfl
    rw [hq]
    norm_num [round2, round_eq]

/-- Witness for C5: the bound instantiated at the example table, whose
two rounded percentages sum to exactly 100. -/
theorem q10_percentages_sum_to_100_witness :
    exampleClaims ≠ []
    ∧ |((q10_status_distribution exampleClaims).map (fun r => r.2)).sum - 100|
        ≤ ((q10_status_distribution exampleClaims).length : ℚ) / 200 :=
  ⟨by decide, q10_percentages_sum_to_100.1 exampleClaims (by decide)⟩

/-- The interpolated `WHERE p.City = '...'` filter of query 1 of the
providers page (empty for the sentinel). -/
def city_filter_providers (selected_city : String) : String :=
  if selected_city ≠ "All Cities" then
    " WHERE p.City = " ++ sqlQuote ++ selected_city ++ sqlQuote
  else ""

/-- The SQL text of query 1 of the providers page. -/
def q1_sql (selected_city : String) : String :=
  "\n    SELECT\n        p.City,\n        COUNT(DISTINCT p.Provider_ID) AS Providers_Count\n    FROM Providers p\n    "
    ++ city_filter_providers selected_city
    ++ "\n    GROUP BY p.City\n    ORDER BY Providers_Count DESC;\n    "

/-- The interpolated `WHERE City = '...'` filter of query 2 (empty for
the sentinel). -/
def q2_where (selected_city : String) : String :=
  if selected_city ≠ "All Cities" then
    "WHERE City = " ++ sqlQuote ++ selected_city ++ sqlQuote
  else ""

/-- The SQL text of query 2 of the providers page. -/
def q2_sql (selected_city : String) : String :=
  "\n    SELECT Type AS Provider_Type, COUNT(*) AS Total\n    FROM Providers\n    "
    ++ q2_where selected_city
    ++ "\n    GROUP BY Type\n    ORDER BY Total DESC;\n    "

/-- The SQL text of the Provider Contacts query (section 3 of the
providers page), only ever built for a specific city. -/
def provider_contacts_sql (selected_city : String) : String :=
  "SELECT Name, Contact FROM Providers WHERE City = "
    ++ sqlQuote ++ selected_city ++ sqlQuote ++ ";"

/-- The interpolated `AND p.City = '...'` filter of query 13 (empty for
the sentinel). -/
def q13_where (selected_city : String) : String :=
  if selected_city ≠ "All Cities" then
    "AND p.City = " ++ sqlQuote ++ selected_city ++ sqlQuote
  else ""

/-- The SQL text of query 13 of the providers page. -/
def q13_sql (selected_city : String) : String :=
  "\n    SELECT p.Name AS Provider_Name, SUM(fl.Quantity) AS Total_Quantity_Donated\n    FROM Providers p\n    JOIN Food_Listings fl ON p.Provider_ID = fl.Provider_ID\n    "
    ++ q13_where selected_city
    ++ "\n    GROUP BY p.Name\n    ORDER BY Total_Quantity_Donated DESC\n    LIMIT 10;\n    "

/-- The query strings `show_providers_page` passes to `run_query`, in
order: query 1, query 2, the Provider Contacts query only when a specific
city is selected (`if selected_city != 'All Cities'`), and query 13. -/
def show_providers_page_queries (selected_city : String) : List String :=
  [q1_sql selected_city, q2_sql selected_city]
    ++ (if selected_city ≠ "All Cities" then [provider_contacts_sql selected_city] else [])
    ++ [q13_sql selected_city]

/-- C10: the Provider Contacts report issues its Providers name/contact
query exactly when a specific city is selected — with the sentinel
`All Cities` the query text never reaches `run_query`. -/
theorem provider_contacts_query_iff (selected_city : String) :
    provider_contacts_sql selected_city ∈ show_providers_page_queries selected_city
      ↔ selected_city ≠ "All Cities" := by
  constructor
  · intro hmem hc
    subst hc
    revert hmem
    decide
  · intro hc
    unfold show_providers_page_queries
    rw [if_pos hc]
    simp

/-- A Streamlit render element produced by a page body (the `st.error`
inline messages issued inside the query layer are tracked in
`St.errors`). -/
inductive RenderItem where
  | header (text : String)
  | subheader (text : String)
  | info (text : String)
  | dataframe (df : DataFrame)
  | barChart
deriving DecidableEq, Repr

/-- The SQL text of query 10 of the dashboard page. -/
def q10_sql : String :=
  "\n    SELECT Status,\n            ROUND((COUNT(*) * 100.0) / (SELECT COUNT(*) FROM Claims), 2) AS Percentage\n    FROM Claims\n    GROUP BY Status;\n    "

/-- The SQL text of query 6 of the dashboard page. -/
def q6_sql : String :=
  "\n    SELECT Location AS City, COUNT(*) AS Listing_Count\n    FROM Food_Listings\n    GROUP BY Location\n    ORDER BY Listing_Count DESC\n    LIMIT 1;\n    "

/-- The interpolated ON-clause filter of query 12 (empty for the
sentinel). -/
def q12_where (selected_city : String) : String :=
  if selected_city ≠ "All Cities" then
    "AND fl.Location = " ++ sqlQuote ++ selected_city ++ sqlQuote
  else ""

/-- The SQL text of query 12 of the dashboard page. -/
def q12_sql (selected_city : String) : String :=
  "\n    SELECT fl.Meal_Type, COUNT(c.Claim_ID) AS Claim_Count\n    FROM Claims c\n    JOIN Food_Listings fl ON c.Food_ID = fl.Food_ID\n    "
    ++ q12_where selected_city
    ++ "\n    GROUP BY fl.Meal_Type\n    ORDER BY Claim_Count DESC\n    LIMIT 1;\n    "

/-- `show_dashboard_page`: runs queries 10, 6 and 12 through `run_query`
and renders each result as a table (with a chart for query 10) or an
informational no-data message when the returned table is empty. -/
def show_dashboard_page (env : Env) (s : St) (selected_city : String) :
    List RenderItem × St :=
  let p10 := run_query env s q10_sql
  let items10 :=
    if p10.1.isEmpty then [RenderItem.info "No claims status data available."]
    else [RenderItem.dataframe p10.1, RenderItem.barChart]
  let p6 := run_query env p10.2 q6_sql
  let items6 :=
    if p6.1.isEmpty then [RenderItem.info "No food listings data available."]
    else [RenderItem.dataframe p6.1]
  let p12 := run_query env p6.2 (q12_sql selected_city)
  let items12 :=
    if p12.1.isEmpty then
      [RenderItem.info ("No most claimed meal type data for selected city: "
        ++ selected_city ++ ".")]
    else [RenderItem.dataframe p12.1]
  ([RenderItem.header "📊 Main Dashboard",
    RenderItem.subheader "10. Claims Status Distribution (Percentage)",
    RenderItem.info "This shows overall claims status and is not filtered by city selection."]
    ++ items10
    ++ [RenderItem.subheader "6. City with Highest Food Listings",
        RenderItem.info "This metric shows the city with the highest listings overall, not filtered by selection."]
    ++ items6
    ++ [RenderItem.header "📈 Analysis & Insights",
        RenderItem.subheader "12. Most Claimed Meal Type"]
    ++ items12,
   p12.2)

/-- The SQL text of the city-selector query in `main`. -/
def all_cities_sql : String :=
  "\n        SELECT DISTINCT City FROM Providers\n        UNION\n        SELECT DISTINCT Location FROM Food_Listings;\n    "

/-- The sidebar part of `main`: run the city-selector query, take column
`City` of the result (`all_cities_df['City']`, a `KeyError` when the
column is absent — this is `Except.error`), sort it and prepend the
sentinel. -/
def main_sidebar (env : Env) (s : St) : Except String (List String) × St :=
  let p := run_query env s all_cities_sql
  match p.1.col "City" with
  | none => (Except.error "KeyError: City", p.2)
  | some vals =>
      (Except.ok ("All Cities" :: vals.insertionSort (fun a b => a ≤ b)), p.2)

/-- Counterexample to C8 as stated: in the concrete failing store state
with no store file and no CSV inputs, the city-list query fails,
`run_query` returns the column-less empty table, and `main` raises a
`KeyError` at `all_cities_df['City']` — the sidebar city selector does
not render. -/
theorem main_sidebar_raises_on_failing_store :
    (main_sidebar envNoCsv st0).1 = Except.error "KeyError: City" := rfl

section FailingStore

/-- With every CSV absent, the `setup_database` body fails at the first
check, reports it, and caches `None`. -/
theorem setup_database_no_csv (env : Env) (s : St)
    (hcsv : ∀ f, env.csvPresent f = false) (hsc : s.setupCache = none) :
    setup_database env s
      = (none,
         { s with
           setupCache := some none,
           setupRuns := s.setupRuns + 1,
           errors := s.errors ++ [csvErrorMsg "providers_data.csv"] }) := by
  have hf : required_csvs.find? (fun f => !env.csvPresent f)
      = some "providers_data.csv" := by
    simp [required_csvs, List.find?, hcsv]
  unfold setup_database
  rw [hsc, hf]

/-- With every CSV absent and no store file, `get_db_connection` yields
no connection after the reported setup failure. -/
theorem get_db_connection_no_csv (env : Env) (s : St)
    (hcsv : ∀ f, env.csvPresent f = false) (hdb : s.dbExists = false)
    (hsc : s.setupCache = none) :
    get_db_connection env s
      = (false,
         { s with
           setupCache := some none,
           setupRuns := s.setupRuns + 1,
           errors := s.errors ++ [csvErrorMsg "providers_data.csv"] }) := by
  unfold get_db_connection
  rw [setup_database_no_csv env s hcsv hsc]
  simp [hdb]

/-- With a cached `None` setup result and no store file,
`get_db_connection` yields no connection and leaves the state unchanged
(no new report). -/
theorem get_db_connection_cached_none (env : Env) (s : St)
    (hdb : s.dbExists = false) (hsc : s.setupCache = some none) :
    get_db_connection env s = (false, s) := by
  unfold get_db_connection
  rw [setup_database_cached env s none hsc]
  simp [hdb]

/-- A fresh query in the all-CSVs-absent failing state: the empty table
is returned and cached, and the setup failure is reported once. -/
theorem run_query_no_csv (env : Env) (s : St) (q : String)
    (hcsv : ∀ f, env.csvPresent f = false) (hdb : s.dbExists = false)
    (hsc : s.setupCache = none) (hm : cacheLookup s.runCache q = none) :
    run_query env s q
      = (DataFrame.emptyDF,
         { s with
           setupCache := some none,
           setupRuns := s.setupRuns + 1,
           errors := s.errors ++ [csvErrorMsg "providers_data.csv"],
           runCache := s.runCache ++ [(q, DataFrame.emptyDF)] }) := by
  unfold run_query
  rw [hm, get_db_connection_no_csv env s hcsv hdb hsc]
  simp

/-- A fresh query once the `None` setup result is cached: the empty table
is returned and cached with no new report. -/
theorem run_query_cached_none (env : Env) (s : St) (q : String)
    (hdb : s.dbExists = false) (hsc : s.setupCache = some none)
    (hm : cacheLookup s.runCache q = none) :
    run_query env s q
      = (DataFrame.emptyDF,
         { s with runCache := s.runCache ++ [(q, DataFrame.emptyDF)] }) := by
  unfold run_query
  rw [hm, get_db_connection_cached_none env s hdb hsc]
  simp

end FailingStore

/-- In the failing state (no store file, cached `None` setup result,
every cached table empty), any `run_query` call — hit or miss — returns
the empty table, reports nothing new, and preserves the failing state. -/
theorem run_query_failing_generic (env : Env) (s : St) (q : String)
    (hdb : s.dbExists = false) (hsc : s.setupCache = some none)
    (hcache : ∀ e ∈ s.runCache, e.2 = DataFrame.emptyDF) :
    (run_query env s q).1 = DataFrame.emptyDF
    ∧ (run_query env s q).2.dbExists = false
    ∧ (run_query env s q).2.setupCache = some none
    ∧ (run_query env s q).2.errors = s.errors
    ∧ ∀ e ∈ (run_query env s q).2.runCache, e.2 = DataFrame.emptyDF := by
  rcases hm : cacheLookup s.runCache q with _ | df
  · rw [run_query_cached_none env s q hdb hsc hm]
    refine ⟨rfl, hdb, hsc, rfl, ?_⟩
    intro e he
    rcases List.mem_append.1 he with h1 | h2
    · exact hcache e h1
    · rw [List.mem_singleton.1 h2]
  · have hdf : df = DataFrame.emptyDF := by
      unfold cacheLookup at hm
      rcases hfind : s.runCache.find? (fun e => e.1 == q) with _ | e
      · rw [hfind] at hm
        exact Option.noConfusion hm
      · rw [hfind] at hm
        rw [← Option.some.inj hm]
        exact hcache e (List.mem_of_find?_eq_some hfind)
    rw [run_query_hit env s q df hm, hdf]
    exact ⟨rfl, hdb, hsc, rfl, hcache⟩

/-- C8 as amended: for the failing store states with no store file and no
CSV inputs, report-query failures inside the page bodies do not raise —
`run_query` returns empty tables, the failure is reported inline exactly
once, and the whole dashboard page still renders with its no-data
messages — but the city-list query failure in `main` raises a `KeyError`
(column `City` is absent from the empty result), so the sidebar city
selector does not render. -/
theorem page_renders_but_selector_raises (env : Env) (s : St) (selected_city : String)
    (hcsv : ∀ f, env.csvPresent f = false) (hdb : s.dbExists = false)
    (hsc : s.setupCache = none) (hrc : s.runCache = []) :
    (main_sidebar env s).1 = Except.error "KeyError: City"
    ∧ (show_dashboard_page env s selected_city).1
        = [RenderItem.header "📊 Main Dashboard",
           RenderItem.subheader "10. Claims Status Distribution (Percentage)",
           RenderItem.info "This shows overall claims status and is not filtered by city selection.",
           RenderItem.info "No claims status data available.",
           RenderItem.subheader "6. City with Highest Food Listings",
           RenderItem.info "This metric shows the city with the highest listings overall, not filtered by selection.",
           RenderItem.info "No food listings data available.",
           RenderItem.header "📈 Analysis & Insights",
           RenderItem.subheader "12. Most Claimed Meal Type",
           RenderItem.info ("No most claimed meal type data for selected city: "
             ++ selected_city ++ ".")]
    ∧ ((show_dashboard_page env s selected_city).2).errors
        = s.errors ++ [csvErrorMsg "providers_data.csv"] := by
  have h10 := run_query_no_csv env s q10_sql hcsv hdb hsc (by rw [hrc]; rfl)
  have hs1db : ((run_query env s q10_sql).2).dbExists = false := by rw [h10]; exact hdb
  have hs1sc : ((run_query env s q10_sql).2).setupCache = some none := by rw [h10]
  have hs1err : ((run_query env s q10_sql).2).errors
      = s.errors ++ [csvErrorMsg "providers_data.csv"] := by rw [h10]
  have hs1rc : ∀ e ∈ ((run_query env s q10_sql).2).runCache, e.2 = DataFrame.emptyDF := by
    rw [h10]
    intro e he
    simp only [hrc, List.nil_append, List.mem_singleton] at he
    rw [he]
  have h6 := run_query_failing_generic env ((run_query env s q10_sql).2) q6_sql
    hs1db hs1sc hs1rc
  have h12 := run_query_failing_generic env
    ((run_query env ((run_query env s q10_sql).2) q6_sql).2) (q12_sql selected_city)
    h6.2.1 h6.2.2.1 h6.2.2.2.2
  refine ⟨?_, ?_, ?_⟩
  · unfold main_sidebar
    rw [run_query_no_csv env s all_cities_sql hcsv hdb hsc (by rw [hrc]; rfl)]
    rfl
  · unfold show_dashboard_page
    have he10 : (run_query env s q10_sql).1 = DataFrame.emptyDF := by rw [h10]
    simp only [he10, h6.1, h12.1]
    rfl
  · unfold show_dashboard_page
    have hfin := h12.2.2.2.1
    simp only [hfin, h6.2.2.2.1, hs1err]

/-- Witness for the amended C8: the failing state instantiated at the
pristine process state with no CSV inputs and the city `Delhi`. -/
theorem page_renders_but_selector_raises_witness :
    ((∀ f, envNoCsv.csvPresent f = false) ∧ st0.dbExists = false
      ∧ st0.setupCache = none ∧ st0.runCache = [])
    ∧ (main_sidebar envNoCsv st0).1 = Except.error "KeyError: City"
    ∧ ((show_dashboard_page envNoCsv st0 "Delhi").2).errors
        = st0.errors ++ [csvErrorMsg "providers_data.csv"] :=
  ⟨⟨fun _ => rfl, rfl, rfl, rfl⟩,
    (page_renders_but_selector_raises envNoCsv st0 "Delhi" (fun _ => rfl) rfl rfl rfl).1,
    (page_renders_but_selector_raises envNoCsv st0 "Delhi" (fun _ => rfl) rfl rfl rfl).2.2⟩
